import Mathlib

/-!
Shallow embedding of the weather-chatbot script (src/main.py) and proofs of
the specification claims about it.

Modelling conventions:
  * Scalar JSON values (strings, numbers, booleans, null) are `JVal`;
    JSON numbers, including floating-point ones, are represented as
    rationals — the program only moves them around, it never computes
    with them.
  * Python exceptions are `PyError`; a fallible computation is
    `Except PyError α`.
  * HTTP calls and generative-model calls are modelled as oracles: the
    already-fetched/parsed payload (or the transport exception) is an
    input to the embedded function.
  * `datetime.now().date()` is a `Date` parameter called `today`.
-/

deriving instance DecidableEq for Except

namespace Chatbot

/-- Scalar JSON value, as produced by `json.loads` / HTTP responses. -/
inductive JVal where
  | str (s : String)
  | num (q : ℚ)
  | bool (b : Bool)
  | null
deriving DecidableEq, Repr

/-- Python truthiness of a scalar value (`if location and date:` etc.):
a string is truthy iff non-empty, a number iff nonzero, `None` is falsy. -/
def JVal.truthy : JVal → Bool
  | .str s => !s.isEmpty
  | .num q => decide (q ≠ 0)
  | .bool b => b
  | .null => false

/-- Python exceptions that the script can raise. -/
inductive PyError where
  | keyError (k : String)
  | indexError
  | valueError (s : String)
  | typeError
  | jsonDecodeError
  | requestException
deriving DecidableEq, Repr

/-- A Python `datetime.date`: proleptic Gregorian calendar date. -/
structure Date where
  year : Nat
  month : Nat
  day : Nat
deriving DecidableEq, Repr

/-- Gregorian leap-year test, as used by `datetime.date`. -/
def isLeap (y : Nat) : Bool := y % 4 == 0 && (y % 100 != 0 || y % 400 == 0)

/-- Number of days in a month of a given year (`datetime.date` validation). -/
def daysInMonth (y m : Nat) : Nat :=
  if m = 2 then (if isLeap y then 29 else 28)
  else if m = 4 ∨ m = 6 ∨ m = 9 ∨ m = 11 then 30
  else 31

/-- Days in the years strictly before year `y` (proleptic Gregorian),
the year part of `datetime.date.toordinal`. -/
def daysBeforeYear (y : Nat) : Nat :=
  365 * (y - 1) + (y - 1) / 4 - (y - 1) / 100 + (y - 1) / 400

/-- Days in the months of year `y` strictly before month `m`. -/
def daysBeforeMonth (y m : Nat) : Nat :=
  (List.range m).foldl (fun acc i => if 1 ≤ i then acc + daysInMonth y i else acc) 0

/-- Embedding of `datetime.date.toordinal`: day number of a date, so that
Python date subtraction `(a - b).days` is `ordinal a - ordinal b`. -/
def ordinal (d : Date) : Nat :=
  daysBeforeYear d.year + daysBeforeMonth d.year d.month + d.day

/-- Day difference `(target - today).days` of two dates, an integer. -/
def daysDiff (target today : Date) : Int :=
  (ordinal target : Int) - (ordinal today : Int)

/-- Value of a list of decimal digit characters. -/
def digitsToNat (l : List Char) : Nat :=
  l.foldl (fun acc c => 10 * acc + (c.toNat - 48)) 0

/-- All characters are ASCII decimal digits. -/
def allDigits (l : List Char) : Bool := l.all Char.isDigit

/-- Splitting a character list at the dash separator (the shape of
`"-".join`-style fields in the date format). -/
def splitDash : List Char → List Char → List (List Char)
  | [], acc => [acc.reverse]
  | c :: cs, acc =>
    if c = '-' then acc.reverse :: splitDash cs []
    else splitDash cs (c :: acc)

/-- Embedding of `datetime.strptime(s, "%Y-%m-%d").date()`.

CPython parses `%Y-%m-%d` with the regex
`\d\d\d\d` `-` `(1[0-2]|0[1-9]|[1-9])` `-` `(3[01]|[12]\d|0[1-9]|[1-9])`
and rejects unconverted trailing data: the year is exactly four digits
while month and day may be written without a leading zero (one or two
digits, month value 1..12, day value 1..31).  The `datetime` constructor
then validates the day against the month length and requires
`MINYEAR = 1 <= year`.  Failure raises `ValueError`. -/
def parseDate (s : String) : Except PyError Date :=
  match splitDash s.data [] with
  | [ys, ms, ds] =>
    if allDigits ys ∧ ys.length = 4 ∧
       allDigits ms ∧ (ms.length = 1 ∨ ms.length = 2) ∧
       1 ≤ digitsToNat ms ∧ digitsToNat ms ≤ 12 ∧
       allDigits ds ∧ (ds.length = 1 ∨ ds.length = 2) ∧
       1 ≤ digitsToNat ds ∧ digitsToNat ds ≤ 31 then
      let y := digitsToNat ys
      let m := digitsToNat ms
      let d := digitsToNat ds
      if 1 ≤ y ∧ d ≤ daysInMonth y m then .ok ⟨y, m, d⟩
      else .error (.valueError s)
    else .error (.valueError s)
  | _ => .error (.valueError s)

/-- Two-digit zero-padded decimal rendering. -/
def pad2 (n : Nat) : String :=
  if n < 10 then "0" ++ toString n else toString n

/-- Four-digit zero-padded decimal rendering. -/
def pad4 (n : Nat) : String :=
  if n < 10 then "000" ++ toString n
  else if n < 100 then "00" ++ toString n
  else if n < 1000 then "0" ++ toString n
  else toString n

/-- Embedding of `date.strftime("%Y-%m-%d")`. -/
def formatDate (d : Date) : String :=
  pad4 d.year ++ "-" ++ pad2 d.month ++ "-" ++ pad2 d.day

/-- Lowercasing of one character, as `str.lower()` acts on the ASCII
range (the range the exit keyword comparison concerns). -/
def lowerChar (c : Char) : Char :=
  if 'A' ≤ c ∧ c ≤ 'Z' then Char.ofNat (c.toNat + 32) else c

/-- Embedding of `str.lower()` on ASCII text. -/
def lowerStr (s : String) : String :=
  ⟨s.data.map lowerChar⟩

/-- The static pictocode table of src/main.py lines 13-49, as the list of
its key-value pairs in source order. -/
def PICTOCODE_MEANINGS : List (Int × String) :=
  [ (1, "Clear, cloudless sky"),
    (2, "Clear, few cirrus"),
    (3, "Clear with cirrus"),
    (4, "Clear with few low clouds"),
    (5, "Clear with few low clouds and few cirrus"),
    (6, "Clear with few low clouds and cirrus"),
    (7, "Partly cloudy"),
    (8, "Partly cloudy and few cirrus"),
    (9, "Partly cloudy and cirrus"),
    (10, "Mixed with some thunderstorm clouds possible"),
    (11, "Mixed with few cirrus with some thunderstorm clouds possible"),
    (12, "Mixed with cirrus and some thunderstorm clouds possible"),
    (13, "Clear but hazy"),
    (14, "Clear but hazy with few cirrus"),
    (15, "Clear but hazy with cirrus"),
    (16, "Fog/low stratus clouds"),
    (17, "Fog/low stratus clouds with few cirrus"),
    (18, "Fog/low stratus clouds with cirrus"),
    (19, "Mostly cloudy"),
    (20, "Mostly cloudy and few cirrus"),
    (21, "Mostly cloudy and cirrus"),
    (22, "Overcast"),
    (23, "Overcast with rain"),
    (24, "Overcast with snow"),
    (25, "Overcast with heavy rain"),
    (26, "Overcast with heavy snow"),
    (27, "Rain, thunderstorms likely"),
    (28, "Light rain, thunderstorms likely"),
    (29, "Storm with heavy snow"),
    (30, "Heavy rain, thunderstorms likely"),
    (31, "Mixed with showers"),
    (32, "Mixed with snow showers"),
    (33, "Overcast with light rain"),
    (34, "Overcast with light snow"),
    (35, "Overcast with mixture of snow and rain") ]

/-- The condition lookup of src/main.py lines 118-120:
`PICTOCODE_MEANINGS.get(code, "Unknown weather condition")`. -/
def describe (pictocode : Int) : String :=
  match PICTOCODE_MEANINGS.find? (fun p => p.1 == pictocode) with
  | some p => p.2
  | none => "Unknown weather condition"

/-- Dictionary access `d[k]` on a parsed JSON object: the first binding of
the key, or a `KeyError`. -/
def getKey (d : List (String × JVal)) (k : String) : Except PyError JVal :=
  match d.find? (fun p => p.1 == k) with
  | some p => .ok p.2
  | none => .error (.keyError k)

/-- One element of the results array of the geocoder response: its
`geometry.lat` / `geometry.lng` fields (degrees, moved verbatim). -/
structure Geometry where
  lat : ℚ
  lng : ℚ
deriving DecidableEq, Repr

/-- Embedding of `geocode_location` (src/main.py lines 52-60) after the
HTTP fetch: given the decoded `results` array, return the latitude and
longitude of the first result, or `(None, None)` if the array is empty. -/
def geocode_location (results : List Geometry) : Option ℚ × Option ℚ :=
  match results with
  | [] => (none, none)
  | g :: _ => (some g.lat, some g.lng)

/-- Python truthiness of a latitude/longitude slot: `None` and `0.0` are
falsy (`if lat and lon:` in the main loop). -/
def optTruthy (o : Option ℚ) : Bool :=
  match o with
  | some q => decide (q ≠ 0)
  | none => false

/-- The day record assembled by `get_weather_data` (src/main.py 77-91). -/
structure DayForecast where
  date : JVal
  temperature_max : JVal
  temperature_min : JVal
  temperature_mean : JVal
  felttemperature_max : JVal
  felttemperature_min : JVal
  precipitation : JVal
  precipitation_probability : JVal
  windspeed_mean : JVal
  winddirection : JVal
  pictocode : JVal
  uvindex : JVal
  relativehumidity_mean : JVal
deriving DecidableEq, Repr

/-- The `data_day` object of the forecast provider: parallel per-field day
arrays keyed by field name; `none` when the response has no `data_day`
key (its access then raises `KeyError`). -/
def ForecastResp : Type := Option (List (String × List JVal))

/-- The dict comprehension of src/main.py line 74-76: index every
per-field array at the day offset; a too-short array raises `IndexError`. -/
def buildDayData : List (String × List JVal) → Nat → Except PyError (List (String × JVal))
  | [], _ => .ok []
  | (k, arr) :: rest, i =>
    match arr.get? i with
    | none => .error .indexError
    | some v => do
      let tail ← buildDayData rest i
      return (k, v) :: tail

/-- Embedding of `get_weather_data` (src/main.py lines 63-93) after the
HTTP fetch: parse the requested date (`ValueError` if malformed,
`TypeError` if not a string), compute `offset = (target - today).days`;
if `0 <= offset < 7`, project every per-field array at the offset and
assemble the `DayForecast` from the thirteen named fields; otherwise
return `none` (absence). -/
def get_weather_data (resp : ForecastResp) (date : JVal) (today : Date) :
    Except PyError (Option DayForecast) := do
  let target ← match date with
    | .str s => parseDate s
    | _ => .error .typeError
  let diff : Int := daysDiff target today
  if 0 ≤ diff ∧ diff < 7 then
    match resp with
    | none => .error (.keyError "data_day")
    | some dd => do
      let day_data ← buildDayData dd diff.toNat
      let time ← getKey day_data "time"
      let tmax ← getKey day_data "temperature_max"
      let tmin ← getKey day_data "temperature_min"
      let tmean ← getKey day_data "temperature_mean"
      let fmax ← getKey day_data "felttemperature_max"
      let fmin ← getKey day_data "felttemperature_min"
      let prec ← getKey day_data "precipitation"
      let precp ← getKey day_data "precipitation_probability"
      let wsp ← getKey day_data "windspeed_mean"
      let wdir ← getKey day_data "winddirection"
      let picto ← getKey day_data "pictocode"
      let uv ← getKey day_data "uvindex"
      let rh ← getKey day_data "relativehumidity_mean"
      return some ⟨time, tmax, tmin, tmean, fmax, fmin, prec, precp, wsp, wdir, picto, uv, rh⟩
  else
    return none

/-- The thirteen field names projected into a `DayForecast`. -/
def requiredDayKeys : List String :=
  [ "time", "temperature_max", "temperature_min", "temperature_mean",
    "felttemperature_max", "felttemperature_min", "precipitation",
    "precipitation_probability", "windspeed_mean", "winddirection",
    "pictocode", "uvindex", "relativehumidity_mean" ]

/-- Embedding of `process_user_query` (src/main.py lines 96-114) after the
model call: given the reply text already decoded by `json.loads` into an
object, read its `date` field (`KeyError` if missing), substitute the
current date formatted `YYYY-MM-DD` when it equals the string `today`,
read the `location` field, and return the pair. -/
def process_user_query (reply : List (String × JVal)) (today : Date) :
    Except PyError (JVal × JVal) := do
  let date0 ← getKey reply "date"
  let date := if date0 = JVal.str "today" then JVal.str (formatDate today) else date0
  let location ← getKey reply "location"
  return (location, date)

/-- Everything the chatbot prints for one turn. -/
inductive Output where
  | report (text : String)
  | m1
  | m2 (location : JVal)
  | m3 (location date : JVal)
  | m4 (e : PyError)
  | goodbye
deriving DecidableEq, Repr

/-- The external world of one turn: the outcome of each outbound call.
`replyParse` is `json.loads` applied to the interpreter reply (malformed
output raises), `geo` is the geocoding fetch for a location, `forecast`
is the forecast fetch for coordinates, `compose` is the second model
call, and `today` is `datetime.now().date()`. -/
structure TurnEnv where
  replyParse : Except PyError (List (String × JVal))
  geo : JVal → Except PyError (List Geometry)
  forecast : ℚ → ℚ → Except PyError ForecastResp
  compose : DayForecast → JVal → Except PyError String
  today : Date

/-- The body of the `try:` block of one loop iteration
(src/main.py lines 169-189): run the stages in sequence and decide which
message is printed; any raised exception escapes as `.error`. -/
def runTurn (env : TurnEnv) : Except PyError Output := do
  let reply ← env.replyParse
  let (location, date) ← process_user_query reply env.today
  if location.truthy && date.truthy then
    let results ← env.geo location
    let (olat, olon) := geocode_location results
    if optTruthy olat && optTruthy olon then
      let resp ← env.forecast (olat.getD 0) (olon.getD 0)
      match ← get_weather_data resp date env.today with
      | some wd => do
        let text ← env.compose wd location
        return Output.report text
      | none => return Output.m3 location date
    else
      return Output.m2 location
  else
    return Output.m1

/-- One full iteration of the interactive loop after the exit check:
the `try/except` of src/main.py lines 169-191 — an exception from any
stage is caught and printed as message M4. -/
def processTurn (env : TurnEnv) : Output :=
  match runTurn env with
  | .ok out => out
  | .error e => Output.m4 e

/-- The interactive loop (src/main.py lines 163-191) over a trace of
input lines, with `envOf` giving the external-call outcomes per line:
a line that case-insensitively equals `exit` prints the farewell and
stops reading; any other line is processed and the loop continues. -/
def chatLoop (inputs : List String) (envOf : String → TurnEnv) : List Output :=
  match inputs with
  | [] => []
  | line :: rest =>
    if lowerStr line = "exit" then [Output.goodbye]
    else processTurn (envOf line) :: chatLoop rest envOf

/-- Startup (src/main.py lines 9-10): `os.environ["GEMINI_API_KEY"]` is
read at import time; a missing variable raises `KeyError` before any
user interaction. -/
def startup (env : String → Option String) : Except PyError Unit :=
  match env "GEMINI_API_KEY" with
  | some _ => .ok ()
  | none => .error (.keyError "GEMINI_API_KEY")

/-- The geocoding URL f-string of src/main.py line 53: it reads
`os.environ["OPENCAGE_API_KEY"]` on every call, raising `KeyError`
during the turn when the variable is absent. -/
def opencageKey (env : String → Option String) : Except PyError String :=
  match env "OPENCAGE_API_KEY" with
  | some k => .ok k
  | none => .error (.keyError "OPENCAGE_API_KEY")

/-- The forecast URL f-string of src/main.py line 64: it reads
`os.environ["METEOBLUE_API_KEY"]` on every call, raising `KeyError`
during the turn when the variable is absent. -/
def meteoblueKey (env : String → Option String) : Except PyError String :=
  match env "METEOBLUE_API_KEY" with
  | some k => .ok k
  | none => .error (.keyError "METEOBLUE_API_KEY")

/-- Rendering of the claim phrase strict `YYYY-MM-DD` format, for
comparison with the parser actually used by the code: a string in strict
format is one the parser accepts and that round-trips through zero-padded
formatting.  src/main.py itself performs no such strictness check. -/
def strictYMD (s : String) : Bool :=
  match parseDate s with
  | .ok d => formatDate d == s
  | .error _ => false

/-- Example provider `data_day` payload: the thirteen projected fields,
each a seven-day parallel array of distinct marker strings. -/
def exDataDay : List (String × List JVal) :=
  requiredDayKeys.map fun k =>
    (k, (List.range 7).map fun i => JVal.str (k ++ "-" ++ toString i))

/-- The day record `exDataDay` yields at day offset 3. -/
def exDF : DayForecast :=
  ⟨.str "time-3", .str "temperature_max-3", .str "temperature_min-3",
   .str "temperature_mean-3", .str "felttemperature_max-3",
   .str "felttemperature_min-3", .str "precipitation-3",
   .str "precipitation_probability-3", .str "windspeed_mean-3",
   .str "winddirection-3", .str "pictocode-3", .str "uvindex-3",
   .str "relativehumidity_mean-3"⟩

/-- Example latitude (48.137 degrees, an exact rational). -/
def exLat : ℚ := 48137 / 1000

/-- Example longitude (11.576 degrees, an exact rational). -/
def exLon : ℚ := 11576 / 1000

/-- Example turn where every external call succeeds. -/
def exEnvGood : TurnEnv :=
  { replyParse := .ok [("location", JVal.str "Munich"), ("date", JVal.str "2024-09-30")]
    geo := fun _ => .ok [⟨exLat, exLon⟩]
    forecast := fun _ _ => .ok (some exDataDay)
    compose := fun _ _ => .ok "the report"
    today := ⟨2024, 9, 27⟩ }

/-- Example turn whose geocoder result lies on the equator: latitude
exactly 0, a present coordinate that Python truthiness treats as falsy. -/
def exEnvZeroLat : TurnEnv :=
  { replyParse := .ok [("location", JVal.str "Null Island"), ("date", JVal.str "2024-09-30")]
    geo := fun _ => .ok [⟨0, 23⟩]
    forecast := fun _ _ => .ok (some exDataDay)
    compose := fun _ _ => .ok "the report"
    today := ⟨2024, 9, 27⟩ }

/-- Example turn whose model reply is not valid JSON: `json.loads` raises. -/
def envBadJson : TurnEnv :=
  { replyParse := .error .jsonDecodeError
    geo := fun _ => .ok []
    forecast := fun _ _ => .ok none
    compose := fun _ _ => .ok ""
    today := ⟨2024, 9, 27⟩ }

/-- Example turn whose model reply is valid JSON but lacks the date field. -/
def envMissingDate : TurnEnv :=
  { replyParse := .ok [("location", JVal.str "Munich")]
    geo := fun _ => .ok []
    forecast := fun _ _ => .ok none
    compose := fun _ _ => .ok ""
    today := ⟨2024, 9, 27⟩ }

/-- Example turn whose model reply has both fields but an empty location. -/
def envEmptyLoc : TurnEnv :=
  { replyParse := .ok [("location", JVal.str ""), ("date", JVal.str "2024-09-30")]
    geo := fun _ => .ok []
    forecast := fun _ _ => .ok none
    compose := fun _ _ => .ok ""
    today := ⟨2024, 9, 27⟩ }

/-- Example turn whose date is written without zero padding (accepted by
the lenient parser) and falls far outside the seven-day window. -/
def envLenient : TurnEnv :=
  { replyParse := .ok [("location", JVal.str "Munich"), ("date", JVal.str "2024-9-3")]
    geo := fun _ => .ok [⟨48, 12⟩]
    forecast := fun _ _ => .ok (some exDataDay)
    compose := fun _ _ => .ok "the report"
    today := ⟨2020, 1, 1⟩ }

/-- Example turn whose date is the free-form string tomorrow, which the
date parser rejects. -/
def envTomorrow : TurnEnv :=
  { replyParse := .ok [("location", JVal.str "Munich"), ("date", JVal.str "tomorrow")]
    geo := fun _ => .ok [⟨exLat, exLon⟩]
    forecast := fun _ _ => .ok (some exDataDay)
    compose := fun _ _ => .ok "the report"
    today := ⟨2024, 9, 27⟩ }

/-- Example process environment with the text-generation credential set
but the geocoding and forecast credentials absent. -/
def envMissingGeoKey : String → Option String :=
  fun k => if k = "GEMINI_API_KEY" then some "g" else none

/-- Bind on a successful `Except` computation. -/
theorem ok_bind {ε α β : Type} (a : α) (f : α → Except ε β) :
    (Except.ok a : Except ε α) >>= f = f a := rfl

/-- Bind on a failed `Except` computation. -/
theorem error_bind {ε α β : Type} (e : ε) (f : α → Except ε β) :
    (Except.error e : Except ε α) >>= f = .error e := rfl

/-- Pure for the `Except` monad is `Except.ok`. -/
theorem pure_eq_ok {ε α : Type} (a : α) : (pure a : Except ε α) = .ok a := rfl

/-- A key found in an association list makes `getKey` succeed. -/
theorem getKey_ok_of_isSome (dl : List (String × JVal)) (k : String)
    (h : (dl.find? (fun p => p.1 == k)).isSome) : ∃ v, getKey dl k = .ok v := by
  unfold getKey
  cases hf : dl.find? (fun p => p.1 == k) with
  | none => rw [hf] at h; simp at h
  | some p => exact ⟨p.2, rfl⟩

/-- Whether a key is found depends only on the key column of the list. -/
theorem find?_fst_isSome {α β : Type} (l1 : List (String × α)) (l2 : List (String × β))
    (k : String) (h : l1.map Prod.fst = l2.map Prod.fst) :
    (l1.find? (fun p => p.1 == k)).isSome = (l2.find? (fun p => p.1 == k)).isSome := by
  induction l1 generalizing l2 with
  | nil =>
    cases l2 with
    | nil => rfl
    | cons b t2 => simp at h
  | cons a t ih =>
    cases l2 with
    | nil => simp at h
    | cons b t2 =>
      simp only [List.map_cons, List.cons.injEq] at h
      obtain ⟨hfst, htl⟩ := h
      simp only [List.find?]
      rw [hfst]
      cases hb : (b.1 == k) with
      | true => rfl
      | false => exact ih t2 htl

/-- When every per-field array is long enough, the day-data projection of
src/main.py line 74-76 succeeds and keeps exactly the field names. -/
theorem buildDayData_ok (dd : List (String × List JVal)) (i : Nat)
    (h : ∀ p ∈ dd, i < p.2.length) :
    ∃ dl, buildDayData dd i = .ok dl ∧ dl.map Prod.fst = dd.map Prod.fst := by
  induction dd with
  | nil => exact ⟨[], rfl, rfl⟩
  | cons a t ih =>
    obtain ⟨k, arr⟩ := a
    have ha : i < arr.length := h (k, arr) (by simp)
    have ht : ∀ p ∈ t, i < p.2.length := fun p hp => h p (List.mem_cons_of_mem _ hp)
    obtain ⟨dl, hdl, hmap⟩ := ih ht
    refine ⟨(k, arr.get ⟨i, ha⟩) :: dl, ?_, by simp [hmap]⟩
    unfold buildDayData
    rw [List.get?_eq_get ha, hdl]
    rfl

section Claims

/-- C2: the condition lookup is a pure total function: for every integer
code in 1..35 it returns exactly the table entry for that code (the pair
of the code and the returned string is in the table), and for every
integer code outside 1..35 it returns the string
"Unknown weather condition". -/
theorem C2_describe_total :
    (∀ code : Int, 1 ≤ code → code ≤ 35 →
      (code, describe code) ∈ PICTOCODE_MEANINGS) ∧
    (∀ code : Int, code < 1 ∨ 35 < code →
      describe code = "Unknown weather condition") := by
  constructor
  · intro code h1 h35
    interval_cases code <;> decide
  · intro code hout
    have hfind : PICTOCODE_MEANINGS.find? (fun p => p.1 == code) = none := by
      apply List.find?_eq_none.mpr
      intro p hp
      have hk : 1 ≤ p.1 ∧ p.1 ≤ 35 := by
        fin_cases hp <;> decide
      simp only [beq_iff_eq]
      rcases hout with h | h
      · intro he; rw [he] at hk; omega
      · intro he; rw [he] at hk; omega
    unfold describe
    rw [hfind]

/-- Witness for C2 at concrete codes: 7 is in range with its table entry,
and 0, 36 and -1 map to the fallback string. -/
theorem C2_describe_total_witness :
    (7, describe 7) ∈ PICTOCODE_MEANINGS ∧
    describe 0 = "Unknown weather condition" ∧
    describe 36 = "Unknown weather condition" ∧
    describe (-1) = "Unknown weather condition" :=
  ⟨C2_describe_total.1 7 (by decide) (by decide),
   C2_describe_total.2 0 (Or.inl (by decide)),
   C2_describe_total.2 36 (Or.inr (by decide)),
   C2_describe_total.2 (-1) (Or.inl (by decide))⟩

/-- C1: for a requested date with day offset `(target - today).days`, the
forecast operation returns a day record if and only if `0 <= offset < 7`
(given a provider response whose parallel per-field arrays cover the
seven-day window and contain the thirteen projected fields); outside the
window it returns the absent value `none` rather than raising, so absence
is the only out-of-range signal. -/
theorem C1_forecast_window (dd : List (String × List JVal)) (s : String)
    (target today : Date)
    (hparse : parseDate s = .ok target)
    (hlen : ∀ p ∈ dd, 7 ≤ p.2.length)
    (hkeys : ∀ k ∈ requiredDayKeys, (dd.find? (fun p => p.1 == k)).isSome) :
    ((∃ df, get_weather_data (some dd) (JVal.str s) today = .ok (some df)) ↔
      (0 ≤ daysDiff target today ∧ daysDiff target today < 7)) ∧
    (¬(0 ≤ daysDiff target today ∧ daysDiff target today < 7) →
      get_weather_data (some dd) (JVal.str s) today = .ok none) := by
  by_cases hr : 0 ≤ daysDiff target today ∧ daysDiff target today < 7
  · have hidx : ∀ p ∈ dd, (daysDiff target today).toNat < p.2.length := by
      intro p hp
      have := hlen p hp
      omega
    obtain ⟨dl, hbuild, hmap⟩ := buildDayData_ok dd (daysDiff target today).toNat hidx
    have hgk : ∀ k ∈ requiredDayKeys, ∃ v, getKey dl k = .ok v := by
      intro k hk
      apply getKey_ok_of_isSome
      rw [find?_fst_isSome dl dd k hmap]
      exact hkeys k hk
    obtain ⟨v1, hv1⟩ := hgk "time" (by simp [requiredDayKeys])
    obtain ⟨v2, hv2⟩ := hgk "temperature_max" (by simp [requiredDayKeys])
    obtain ⟨v3, hv3⟩ := hgk "temperature_min" (by simp [requiredDayKeys])
    obtain ⟨v4, hv4⟩ := hgk "temperature_mean" (by simp [requiredDayKeys])
    obtain ⟨v5, hv5⟩ := hgk "felttemperature_max" (by simp [requiredDayKeys])
    obtain ⟨v6, hv6⟩ := hgk "felttemperature_min" (by simp [requiredDayKeys])
    obtain ⟨v7, hv7⟩ := hgk "precipitation" (by simp [requiredDayKeys])
    obtain ⟨v8, hv8⟩ := hgk "precipitation_probability" (by simp [requiredDayKeys])
    obtain ⟨v9, hv9⟩ := hgk "windspeed_mean" (by simp [requiredDayKeys])
    obtain ⟨v10, hv10⟩ := hgk "winddirection" (by simp [requiredDayKeys])
    obtain ⟨v11, hv11⟩ := hgk "pictocode" (by simp [requiredDayKeys])
    obtain ⟨v12, hv12⟩ := hgk "uvindex" (by simp [requiredDayKeys])
    obtain ⟨v13, hv13⟩ := hgk "relativehumidity_mean" (by simp [requiredDayKeys])
    have hok : get_weather_data (some dd) (JVal.str s) today =
        .ok (some ⟨v1, v2, v3, v4, v5, v6, v7, v8, v9, v10, v11, v12, v13⟩) := by
      unfold get_weather_data
      simp only [hparse, ok_bind]
      rw [if_pos hr]
      simp only [hbuild, ok_bind, hv1, hv2, hv3, hv4, hv5, hv6, hv7, hv8, hv9,
        hv10, hv11, hv12, hv13, pure_eq_ok]
    refine ⟨⟨fun _ => hr, fun _ => ⟨_, hok⟩⟩, fun hc => absurd hr hc⟩
  · have hnone : get_weather_data (some dd) (JVal.str s) today = .ok none := by
      unfold get_weather_data
      simp only [hparse, ok_bind]
      rw [if_neg hr]
      rfl
    refine ⟨⟨fun hex => ?_, fun hc => absurd hc hr⟩, fun _ => hnone⟩
    obtain ⟨df, hdf⟩ := hex
    rw [hnone] at hdf
    simp at hdf

/-- C3: when the interpreter reply parses to an object whose date field is
the literal string `today`, the returned date is the current calendar date
formatted `YYYY-MM-DD`; any other date value is returned unchanged
(given the location field is also present, since otherwise the access
raises). -/
theorem C3_today_resolution (reply : List (String × JVal)) (today : Date)
    (loc : JVal) (hloc : getKey reply "location" = .ok loc) :
    (getKey reply "date" = .ok (JVal.str "today") →
      process_user_query reply today = .ok (loc, JVal.str (formatDate today))) ∧
    (∀ d : JVal, getKey reply "date" = .ok d → d ≠ JVal.str "today" →
      process_user_query reply today = .ok (loc, d)) := by
  constructor
  · intro hd
    unfold process_user_query
    simp [hd, ok_bind, hloc, pure_eq_ok]
  · intro d hd hne
    unfold process_user_query
    simp only [hd, ok_bind, hloc, pure_eq_ok]
    rw [if_neg hne]

/-- Witness for C1 at a concrete provider payload: offset 3 yields a day
record, offsets 7 and -1 both yield the absent value. -/
theorem C1_forecast_window_witness :
    (∃ df, get_weather_data (some exDataDay) (JVal.str "2024-09-30") ⟨2024, 9, 27⟩ =
      .ok (some df)) ∧
    get_weather_data (some exDataDay) (JVal.str "2024-09-30") ⟨2024, 9, 23⟩ = .ok none ∧
    get_weather_data (some exDataDay) (JVal.str "2024-10-01") ⟨2024, 10, 2⟩ = .ok none :=
  ⟨(C1_forecast_window exDataDay "2024-09-30" ⟨2024, 9, 30⟩ ⟨2024, 9, 27⟩ rfl
      (by decide) (by decide)).1.mpr (by decide),
   (C1_forecast_window exDataDay "2024-09-30" ⟨2024, 9, 30⟩ ⟨2024, 9, 23⟩ rfl
      (by decide) (by decide)).2 (by decide),
   (C1_forecast_window exDataDay "2024-10-01" ⟨2024, 10, 1⟩ ⟨2024, 10, 2⟩ rfl
      (by decide) (by decide)).2 (by decide)⟩

/-- Witness for C3 at concrete replies: the literal date today resolves to
the formatted current date, a dated reply passes through unchanged. -/
theorem C3_today_resolution_witness :
    process_user_query [("location", JVal.str "Munich"), ("date", JVal.str "today")]
      ⟨2024, 9, 27⟩ = .ok (JVal.str "Munich", JVal.str (formatDate ⟨2024, 9, 27⟩)) ∧
    process_user_query [("location", JVal.str "Munich"), ("date", JVal.str "2024-09-30")]
      ⟨2024, 9, 27⟩ = .ok (JVal.str "Munich", JVal.str "2024-09-30") :=
  ⟨(C3_today_resolution [("location", JVal.str "Munich"), ("date", JVal.str "today")]
      ⟨2024, 9, 27⟩ (JVal.str "Munich") rfl).1 rfl,
   (C3_today_resolution [("location", JVal.str "Munich"), ("date", JVal.str "2024-09-30")]
      ⟨2024, 9, 27⟩ (JVal.str "Munich") rfl).2 (JVal.str "2024-09-30") rfl (by decide)⟩

/-- C4 as stated is false: on a turn where the interpreter produces both
fields, the geocoder returns present coordinates (latitude exactly 0, on
the equator), and the forecast stage would return a day record, the loop
still prints message M2, because the `if lat and lon:` check treats the
float 0.0 as falsy. -/
theorem C4_counterexample :
    geocode_location [⟨0, 23⟩] = (some 0, some 23) ∧
    get_weather_data (some exDataDay) (JVal.str "2024-09-30") ⟨2024, 9, 27⟩ =
      .ok (some exDF) ∧
    processTurn exEnvZeroLat = Output.m2 (JVal.str "Null Island") :=
  ⟨rfl, rfl, rfl⟩

/-- C4 amended: when the interpreter produces two truthy fields, the
geocoder returns present coordinates that are both nonzero, the forecast
stage returns a day record, and the composer call succeeds, the loop
prints the composed report. -/
theorem C4_success_path (env : TurnEnv) (reply : List (String × JVal))
    (loc date : JVal) (results : List Geometry) (lat lon : ℚ)
    (resp : ForecastResp) (df : DayForecast) (text : String)
    (h1 : env.replyParse = .ok reply)
    (h2 : process_user_query reply env.today = .ok (loc, date))
    (hl : loc.truthy = true) (hd : date.truthy = true)
    (hgeo : env.geo loc = .ok results)
    (hco : geocode_location results = (some lat, some lon))
    (hlat : lat ≠ 0) (hlon : lon ≠ 0)
    (hfc : env.forecast lat lon = .ok resp)
    (hwd : get_weather_data resp date env.today = .ok (some df))
    (hcomp : env.compose df loc = .ok text) :
    processTurn env = Output.report text := by
  unfold processTurn runTurn
  simp [h1, h2, hl, hd, hgeo, hco, hfc, hwd, hcomp, ok_bind, pure_eq_ok,
    optTruthy, hlat, hlon]

/-- Witness for the amended C4: a fully successful concrete turn prints
the composed report. -/
theorem C4_success_path_witness :
    processTurn exEnvGood = Output.report "the report" :=
  C4_success_path exEnvGood
    [("location", JVal.str "Munich"), ("date", JVal.str "2024-09-30")]
    (JVal.str "Munich") (JVal.str "2024-09-30") [⟨exLat, exLon⟩]
    exLat exLon (some exDataDay) exDF "the report"
    rfl rfl rfl rfl rfl rfl (by norm_num [exLat]) (by norm_num [exLon])
    rfl rfl rfl

/-- C5 as stated is false: with the text-generation credential set but the
geocoding credential absent, startup succeeds instead of failing fast; the
geocoding and forecast credentials are not read at startup at all. -/
theorem C5_counterexample :
    envMissingGeoKey "OPENCAGE_API_KEY" = none ∧
    envMissingGeoKey "METEOBLUE_API_KEY" = none ∧
    startup envMissingGeoKey = .ok () :=
  ⟨rfl, rfl, rfl⟩

/-- C5 amended: only the text-generation credential is read at startup and
only its absence fails fast, before any user interaction; the geocoding
and forecast credentials are read inside each geocoding/forecast call,
where their absence raises a `KeyError` during the turn. -/
theorem C5_credentials (env : String → Option String) :
    (env "GEMINI_API_KEY" = none →
      startup env = .error (.keyError "GEMINI_API_KEY")) ∧
    (∀ k, env "GEMINI_API_KEY" = some k → startup env = .ok ()) ∧
    (env "OPENCAGE_API_KEY" = none →
      opencageKey env = .error (.keyError "OPENCAGE_API_KEY")) ∧
    (env "METEOBLUE_API_KEY" = none →
      meteoblueKey env = .error (.keyError "METEOBLUE_API_KEY")) := by
  refine ⟨fun h => ?_, fun k h => ?_, fun h => ?_, fun h => ?_⟩ <;>
    simp [startup, opencageKey, meteoblueKey, h]

/-- Witness for the amended C5: a concrete environment missing the two
per-call credentials passes startup yet fails inside the calls. -/
theorem C5_credentials_witness :
    startup envMissingGeoKey = .ok () ∧
    opencageKey envMissingGeoKey = .error (.keyError "OPENCAGE_API_KEY") ∧
    meteoblueKey envMissingGeoKey = .error (.keyError "METEOBLUE_API_KEY") :=
  ⟨(C5_credentials envMissingGeoKey).2.1 "g" rfl,
   (C5_credentials envMissingGeoKey).2.2.1 rfl,
   (C5_credentials envMissingGeoKey).2.2.2 rfl⟩

/-- C6 as stated is false: a malformed model reply (a parse failure) is an
exception caught at the top level, so the loop prints message M4, not M1. -/
theorem C6_counterexample :
    processTurn envBadJson = Output.m4 PyError.jsonDecodeError ∧
    Output.m4 PyError.jsonDecodeError ≠ Output.m1 :=
  ⟨rfl, by decide⟩

/-- C6 amended: a parse failure of the model reply (malformed output or a
missing field) raises and the loop prints message M4 with that error;
message M1 is printed exactly when the interpreter returns both fields
but at least one of them is falsy (such as an empty string). -/
theorem C6_interpreter_failure_paths (env : TurnEnv) :
    (∀ e, env.replyParse = .error e → processTurn env = Output.m4 e) ∧
    (∀ reply e, env.replyParse = .ok reply →
      process_user_query reply env.today = .error e →
      processTurn env = Output.m4 e) ∧
    (∀ reply loc date, env.replyParse = .ok reply →
      process_user_query reply env.today = .ok (loc, date) →
      (loc.truthy && date.truthy) = false → processTurn env = Output.m1) := by
  refine ⟨fun e h => ?_, fun reply e h1 h2 => ?_, fun reply loc date h1 h2 hf => ?_⟩
  · unfold processTurn runTurn
    simp [h, error_bind]
  · unfold processTurn runTurn
    simp [h1, h2, ok_bind, error_bind]
  · have hneg : ¬(loc.truthy = true ∧ date.truthy = true) := by
      intro hc
      rw [hc.1, hc.2] at hf
      simp at hf
    unfold processTurn runTurn
    simp [h1, h2, hneg, ok_bind, pure_eq_ok]

/-- Witness for the amended C6 at concrete turns: a reply without a date
field yields M4 with its `KeyError`, an empty location yields M1. -/
theorem C6_interpreter_failure_paths_witness :
    processTurn envMissingDate = Output.m4 (PyError.keyError "date") ∧
    processTurn envEmptyLoc = Output.m1 :=
  ⟨(C6_interpreter_failure_paths envMissingDate).2.1
      [("location", JVal.str "Munich")] (PyError.keyError "date") rfl rfl,
   (C6_interpreter_failure_paths envEmptyLoc).2.2
      [("location", JVal.str ""), ("date", JVal.str "2024-09-30")]
      (JVal.str "") (JVal.str "2024-09-30") rfl rfl rfl⟩

/-- C7: an empty geocoder results array yields the absent sentinel pair,
and on no response is the returned pair partially populated: the two
components are absent together or present together. -/
theorem C7_geocode_sentinel :
    geocode_location [] = (none, none) ∧
    ∀ results : List Geometry,
      ((geocode_location results).1 = none ↔ (geocode_location results).2 = none) := by
  refine ⟨rfl, fun results => ?_⟩
  cases results <;> simp [geocode_location]

/-- C8: a turn on which some stage raises is caught by the loop: it prints
message M4 carrying the error and the loop goes on to process the
remaining input. -/
theorem C8_exception_caught (l : String) (rest : List String)
    (envOf : String → TurnEnv) (e : PyError)
    (hne : ¬ lowerStr l = "exit") (herr : runTurn (envOf l) = .error e) :
    chatLoop (l :: rest) envOf = Output.m4 e :: chatLoop rest envOf := by
  have hstep : chatLoop (l :: rest) envOf =
      if lowerStr l = "exit" then [Output.goodbye]
      else processTurn (envOf l) :: chatLoop rest envOf := rfl
  rw [hstep, if_neg hne]
  unfold processTurn
  rw [herr]

/-- Witness for C8: a turn whose model reply fails to parse prints M4 and
the (empty) rest of the input is still handled by the loop. -/
theorem C8_exception_caught_witness :
    chatLoop ["hi"] (fun _ => envBadJson) = [Output.m4 PyError.jsonDecodeError] :=
  C8_exception_caught "hi" [] (fun _ => envBadJson) PyError.jsonDecodeError
    (by decide) rfl

/-- C9: the loop terminates exactly on the first input line that
case-insensitively equals exit, printing the farewell and reading no
further input; a trace without such a line is processed in full, turn by
turn, with no other termination path. -/
theorem C9_exit_only_termination (envOf : String → TurnEnv) :
    (∀ pre (l : String) post, (∀ x ∈ pre, ¬ lowerStr x = "exit") →
      lowerStr l = "exit" →
      chatLoop (pre ++ l :: post) envOf =
        pre.map (fun x => processTurn (envOf x)) ++ [Output.goodbye]) ∧
    (∀ inputs : List String, (∀ x ∈ inputs, ¬ lowerStr x = "exit") →
      chatLoop inputs envOf = inputs.map (fun x => processTurn (envOf x))) := by
  constructor
  · intro pre l post hpre hl
    induction pre with
    | nil => simp [chatLoop, hl]
    | cons a t ih =>
      have ha : ¬ lowerStr a = "exit" := hpre a (by simp)
      have ht : ∀ x ∈ t, ¬ lowerStr x = "exit" := fun x hx => hpre x (by simp [hx])
      simp only [List.cons_append, chatLoop, if_neg ha, List.map_cons,
        List.cons.injEq]
      exact ⟨trivial, ih ht⟩
  · intro inputs hin
    induction inputs with
    | nil => rfl
    | cons a t ih =>
      have ha : ¬ lowerStr a = "exit" := hin a (by simp)
      have ht : ∀ x ∈ t, ¬ lowerStr x = "exit" := fun x hx => hin x (by simp [hx])
      simp only [chatLoop, if_neg ha, ih ht, List.map_cons]

/-- Witness for C9: the uppercase line EXIT ends a concrete trace after
one processed turn, ignoring later lines, and an exit-free trace is
processed in full. -/
theorem C9_exit_only_termination_witness :
    chatLoop ["hello", "EXIT", "ignored"] (fun _ => envBadJson) =
      [processTurn envBadJson, Output.goodbye] ∧
    chatLoop ["hello", "hi"] (fun _ => envBadJson) =
      [processTurn envBadJson, processTurn envBadJson] :=
  ⟨(C9_exit_only_termination (fun _ => envBadJson)).1 ["hello"] "EXIT" ["ignored"]
      (by decide) (by decide),
   (C9_exit_only_termination (fun _ => envBadJson)).2 ["hello", "hi"] (by decide)⟩

/-- C10 as stated is false: the date 2024-9-3 is neither the literal
today nor in strict zero-padded `YYYY-MM-DD` form, yet the lenient
`%Y-%m-%d` parser accepts it, no exception is raised, and the concrete
turn below ends with message M3 (out of range), not M4. -/
theorem C10_counterexample :
    strictYMD "2024-9-3" = false ∧
    JVal.str "2024-9-3" ≠ JVal.str "today" ∧
    processTurn envLenient = Output.m3 (JVal.str "Munich") (JVal.str "2024-9-3") :=
  ⟨rfl, by decide, rfl⟩

/-- C10 amended: on a turn that reaches the forecast stage (truthy
location and date, nonzero present coordinates, successful forecast
fetch) with a date string the lenient `%Y-%m-%d` parse rejects, the
forecast stage raises while parsing the date, the turn ends with message
M4 carrying that error — no earlier stage having validated, clamped or
repaired the date — and the loop continues with the remaining input. -/
theorem C10_unparseable_date_m4 (l : String) (rest : List String)
    (envOf : String → TurnEnv) (reply : List (String × JVal))
    (loc : JVal) (ds : String) (results : List Geometry) (lat lon : ℚ)
    (resp : ForecastResp) (e : PyError)
    (hne : ¬ lowerStr l = "exit")
    (h1 : (envOf l).replyParse = .ok reply)
    (h2 : process_user_query reply (envOf l).today = .ok (loc, JVal.str ds))
    (hl : loc.truthy = true) (hd : (JVal.str ds).truthy = true)
    (hgeo : (envOf l).geo loc = .ok results)
    (hco : geocode_location results = (some lat, some lon))
    (hlat : lat ≠ 0) (hlon : lon ≠ 0)
    (hfc : (envOf l).forecast lat lon = .ok resp)
    (hparse : parseDate ds = .error e) :
    chatLoop (l :: rest) envOf = Output.m4 e :: chatLoop rest envOf := by
  have hstep : chatLoop (l :: rest) envOf =
      if lowerStr l = "exit" then [Output.goodbye]
      else processTurn (envOf l) :: chatLoop rest envOf := rfl
  rw [hstep, if_neg hne]
  have hwd : get_weather_data resp (JVal.str ds) (envOf l).today = .error e := by
    unfold get_weather_data
    simp [hparse, error_bind]
  unfold processTurn runTurn
  simp [h1, h2, hl, hd, hgeo, hco, hfc, hwd, ok_bind, error_bind, pure_eq_ok,
    optTruthy, hlat, hlon]

/-- Witness for the amended C10: the date string tomorrow reaches the
forecast stage of a concrete turn, its parse fails, and the turn prints
M4 with the `ValueError`. -/
theorem C10_unparseable_date_m4_witness :
    chatLoop ["weather tomorrow in Munich"] (fun _ => envTomorrow) =
      [Output.m4 (PyError.valueError "tomorrow")] :=
  C10_unparseable_date_m4 "weather tomorrow in Munich" [] (fun _ => envTomorrow)
    [("location", JVal.str "Munich"), ("date", JVal.str "tomorrow")]
    (JVal.str "Munich") "tomorrow" [⟨exLat, exLon⟩] exLat exLon
    (some exDataDay) (PyError.valueError "tomorrow")
    (by decide) rfl rfl rfl rfl rfl rfl (by norm_num [exLat]) (by norm_num [exLon])
    rfl rfl

end Claims

end Chatbot
